import Mathlib

/-!
Verification of the MatterSim digital-twin pipeline (mattersim_dt).

Each namespace below is a shallow embedding of one Python module of the
repository.  Numeric values are modelled with exact rationals (the Python
code uses IEEE floats, but every claim under scrutiny concerns exact
arithmetic relationships that hold identically over the rationals), and
external collaborators (the pymatgen phase-diagram backend, the force-field
calculator, the BFGS optimizer, the ASE trajectory reader) are modelled as
explicit function parameters, exactly as the specification treats them
(black boxes with stated contracts).
-/

namespace Stability

/-- RelaxedEntry as registered by StabilityAnalyzer.add_result
(src/src/mattersim_dt/analysis/stability.py): a formula plus the
whole-structure total energy, wrapped by the code into a pymatgen
ComputedEntry. -/
structure StabEntry where
  formula : String
  total_energy : ℚ
deriving DecidableEq

/-- StabilityVerdict: the per-entry dictionary produced by
StabilityAnalyzer.analyze. -/
structure StabVerdict where
  formula : String
  energy_above_hull : ℚ
  is_stable : Bool
deriving DecidableEq

/-- Shallow embedding of StabilityAnalyzer.analyze
(src/src/mattersim_dt/analysis/stability.py, lines 42-71).  The pymatgen
PhaseDiagram collaborator is abstracted as the parameter `hull`, which maps
the full registered entry set and one entry to that entry's energy above
the convex hull (the spec treats this collaborator as a black box).  The
code returns None (here `none`) when the entry list is empty, and otherwise
one verdict per registered entry, stable iff the hull distance is at most
the configured threshold. -/
def analyze (hull : List StabEntry → StabEntry → ℚ) (threshold : ℚ)
    (entries : List StabEntry) : Option (List StabVerdict) :=
  if entries = [] then
    none
  else
    some (entries.map (fun e =>
      let e_above_hull := hull entries e
      { formula := e.formula
        energy_above_hull := e_above_hull
        is_stable := decide (e_above_hull ≤ threshold) }))

/-- Hull collaborator for a registered set consisting of a single
pure-element entry: the lone elemental entry is itself the hull, so its
energy above hull is 0 (this is what pymatgen returns for a one-element,
one-entry phase diagram). -/
def hullSingleElement : List StabEntry → StabEntry → ℚ := fun _ _ => 0

end Stability

namespace Validator

/-- Python round() on an exact rational: round to the nearest integer,
ties to the even integer (banker rounding, the documented behaviour of
Python 3 round). -/
def pyRound (q : ℚ) : ℤ :=
  let f := Int.floor q
  let r := q - (f : ℚ)
  if r < 1/2 then f
  else if 1/2 < r then f + 1
  else if f % 2 = 0 then f else f + 1

/-- Python round(q, p): round to p decimal places. -/
def pyRoundTo (p : ℕ) (q : ℚ) : ℚ :=
  (pyRound (q * (10 : ℚ) ^ p) : ℚ) / (10 : ℚ) ^ p

/-- Supercell detection and correction applied to the simulated lattice
constant before comparison (src/src/mattersim_dt/analysis/validator.py,
lines 68-76): when the simulated value exceeds 2.5 times the expected
value, divide by the nearest-integer multiple; otherwise use the raw
value. -/
def correctedLattice (sim_a_raw exp_a : ℚ) : ℚ :=
  if exp_a * 2.5 < sim_a_raw then
    sim_a_raw / ((pyRound (sim_a_raw / exp_a) : ℚ))
  else
    sim_a_raw

/-- Lattice-constant percentage error (validator.py line 78). -/
def latticeErrorPct (sim_a exp_a : ℚ) : ℚ :=
  if 0 < exp_a then |sim_a - exp_a| / exp_a * 100 else 0

/-- Density percentage error (validator.py line 83). -/
def densityErrorPct (sim_rho exp_rho : ℚ) : ℚ :=
  if 0 < exp_rho then |sim_rho - exp_rho| / exp_rho * 100 else 0

/-- Accuracy score (validator.py lines 87-88): weighted error, floored at
zero. -/
def accuracyScore (a_error rho_error : ℚ) : ℚ :=
  max 0 (100 - (a_error * 0.6 + rho_error * 0.4))

/-- One row of the report appended by MaterialValidator.calculate_score
(validator.py lines 90-100); numeric report fields carry the same
round(x, n) presentation applied by the code. -/
structure ScoreRow where
  sim_lattice_a : ℚ
  exp_lattice_a : ℚ
  lattice_error_pct : ℚ
  sim_density : ℚ
  exp_density : ℚ
  density_error_pct : ℚ
  accuracy_score : ℚ
deriving DecidableEq

/-- Shallow embedding of the per-match body of
MaterialValidator.calculate_score (validator.py lines 64-100) for one
matched formula: supercell correction, the two percentage errors, and the
floored weighted score. -/
def calculateScoreRow (sim_a_raw sim_rho exp_a exp_rho : ℚ) : ScoreRow :=
  let sim_a := correctedLattice sim_a_raw exp_a
  let a_error := latticeErrorPct sim_a exp_a
  let rho_error := densityErrorPct sim_rho exp_rho
  let score := accuracyScore a_error rho_error
  { sim_lattice_a := pyRoundTo 4 sim_a
    exp_lattice_a := pyRoundTo 4 exp_a
    lattice_error_pct := pyRoundTo 2 a_error
    sim_density := pyRoundTo 4 sim_rho
    exp_density := pyRoundTo 4 exp_rho
    density_error_pct := pyRoundTo 2 rho_error
    accuracy_score := pyRoundTo 2 score }

end Validator

/-- C4: the claim states that for fewer than 2 distinct registered
compositions (including a single pure-element entry) analyze() returns an
empty result rather than verdicts.  Counterexample: with a single
pure-element entry registered (for which the hull collaborator reports
distance 0, as pymatgen does for a one-entry elemental phase diagram),
analyze() returns a non-empty verdict list, not an empty result. -/
theorem c4_counterexample_single_entry_yields_verdict :
    Stability.analyze Stability.hullSingleElement (1/10) [⟨"Cu", -3⟩] ≠ none ∧
    Stability.analyze Stability.hullSingleElement (1/10) [⟨"Cu", -3⟩] ≠ some [] := by
  refine ⟨?_, ?_⟩ <;> simp [Stability.analyze]

/-- C4 amended: StabilityAnalyzer.analyze() returns an empty result (None)
exactly when zero entries are registered; with one or more registered
entries (even a single pure-element composition) it returns one verdict
per registered entry, never an empty result. -/
theorem c4_analyze_empty_iff_no_entries
    (hull : List Stability.StabEntry → Stability.StabEntry → ℚ) (th : ℚ)
    (entries : List Stability.StabEntry) :
    (Stability.analyze hull th entries = none ↔ entries = []) ∧
    (∀ vs, Stability.analyze hull th entries = some vs → vs.length = entries.length) := by
  unfold Stability.analyze
  by_cases h : entries = []
  · simp [h]
  · simp only [if_neg h]
    refine ⟨by simp [h], ?_⟩
    intro vs hvs
    cases hvs
    simp

/-- C4 witness: the amended theorem applied to the concrete singleton
entry set consisting of pure Cu. -/
theorem c4_witness :
    ([⟨"Cu", 0, true⟩] : List Stability.StabVerdict).length =
      ([⟨"Cu", -3⟩] : List Stability.StabEntry).length :=
  (c4_analyze_empty_iff_no_entries Stability.hullSingleElement (1/10) [⟨"Cu", -3⟩]).2
    [⟨"Cu", 0, true⟩] (by simp [Stability.analyze, Stability.hullSingleElement])

/-- C9: the supercell correction divides the simulated lattice constant by
the nearest-integer factor exactly when the simulated value exceeds 2.5
times the expected value (in particular, ratio 2.0 at 7.22 vs 3.61 does
not trigger it and ratio 3.0 at 10.83 vs 3.61 divides by 3), and the
accuracy score equals max(0, 100 - (0.6 * lattice-error + 0.4 *
density-error)), giving 97.0 for 5 percent lattice error and 0 percent
density error. -/
theorem c9_supercell_correction_and_score :
    (∀ sim_a exp_a : ℚ, sim_a ≤ exp_a * 2.5 →
        Validator.correctedLattice sim_a exp_a = sim_a) ∧
    (∀ sim_a exp_a : ℚ, exp_a * 2.5 < sim_a →
        Validator.correctedLattice sim_a exp_a =
          sim_a / ((Validator.pyRound (sim_a / exp_a) : ℚ))) ∧
    (∀ aerr rerr : ℚ, Validator.accuracyScore aerr rerr =
        max 0 (100 - (0.6 * aerr + 0.4 * rerr))) ∧
    Validator.correctedLattice 7.22 3.61 = 7.22 ∧
    Validator.correctedLattice 10.83 3.61 = 10.83 / 3 ∧
    (Validator.calculateScoreRow 3.7905 8.96 3.61 8.96).accuracy_score = 97 := by
  have hround3 : Validator.pyRound 3 = 3 := by
    unfold Validator.pyRound
    norm_num
  refine ⟨?_, ?_, ?_, ?_, ?_, ?_⟩
  · intro sim_a exp_a h
    unfold Validator.correctedLattice
    rw [if_neg (not_lt.mpr h)]
  · intro sim_a exp_a h
    unfold Validator.correctedLattice
    rw [if_pos h]
  · intro aerr rerr
    unfold Validator.accuracyScore
    ring_nf
  · unfold Validator.correctedLattice
    rw [if_neg (by norm_num)]
  · unfold Validator.correctedLattice
    rw [if_pos (by norm_num)]
    have h3 : (10.83 : ℚ) / 3.61 = 3 := by norm_num
    rw [h3, hround3]
    norm_num
  · have hlat : Validator.correctedLattice 3.7905 3.61 = 3.7905 := by
      unfold Validator.correctedLattice
      rw [if_neg (by norm_num)]
    have herr : Validator.latticeErrorPct 3.7905 3.61 = 5 := by
      unfold Validator.latticeErrorPct
      rw [if_pos (by norm_num), abs_of_nonneg (by norm_num : (0 : ℚ) ≤ 3.7905 - 3.61)]
      norm_num
    have hrho : Validator.densityErrorPct 8.96 8.96 = 0 := by
      unfold Validator.densityErrorPct
      rw [if_pos (by norm_num)]
      norm_num
    have hscore : Validator.accuracyScore 5 0 = 97 := by
      unfold Validator.accuracyScore
      norm_num
    show Validator.pyRoundTo 2
      (Validator.accuracyScore
        (Validator.latticeErrorPct (Validator.correctedLattice 3.7905 3.61) 3.61)
        (Validator.densityErrorPct 8.96 8.96)) = 97
    rw [hlat, herr, hrho, hscore]
    unfold Validator.pyRoundTo
    norm_num
    unfold Validator.pyRound
    norm_num

/-- C9 witness: the universal parts of the theorem applied at the concrete
lattice constants named by the claim. -/
theorem c9_witness :
    Validator.correctedLattice 7.22 3.61 = 7.22 ∧
    Validator.correctedLattice 10.83 3.61 =
      10.83 / ((Validator.pyRound (10.83 / 3.61) : ℚ)) := by
  exact ⟨c9_supercell_correction_and_score.1 7.22 3.61 (by norm_num),
    c9_supercell_correction_and_score.2.1 10.83 3.61 (by norm_num)⟩

namespace TernaryMixer

/-- LATTICE_DATA of TernaryAlloyMixer
(src/src/mattersim_dt/builder/ternary_mixer.py, lines 15-50): element
symbol to (crystal-structure family, lattice constant in Angstrom). -/
def LATTICE_DATA : List (String × String × ℚ) :=
  [("Li", ("bcc", 3.51)), ("Be", ("hcp", 2.29)), ("Mg", ("hcp", 3.21)),
   ("Al", ("fcc", 4.05)),
   ("Ti", ("hcp", 2.95)), ("V", ("bcc", 3.03)), ("Cr", ("bcc", 2.88)),
   ("Mn", ("bcc", 8.91)), ("Fe", ("bcc", 2.87)), ("Co", ("hcp", 2.51)),
   ("Ni", ("fcc", 3.52)), ("Cu", ("fcc", 3.61)), ("Zn", ("hcp", 2.66)),
   ("Zr", ("hcp", 3.23)), ("Nb", ("bcc", 3.30)), ("Mo", ("bcc", 3.15)),
   ("Tc", ("hcp", 2.74)), ("Ru", ("hcp", 2.71)), ("Rh", ("fcc", 3.80)),
   ("Pd", ("fcc", 3.89)), ("Ag", ("fcc", 4.09)), ("Cd", ("hcp", 2.98)),
   ("Hf", ("hcp", 3.20)), ("Ta", ("bcc", 3.31)), ("W", ("bcc", 3.16)),
   ("Re", ("hcp", 2.76)), ("Os", ("hcp", 2.74)), ("Ir", ("fcc", 3.84)),
   ("Pt", ("fcc", 3.92)), ("Au", ("fcc", 4.08))]

/-- CRYSTAL_PRIORITY.get(cs, 0) (ternary_mixer.py lines 53-57): fcc has
priority 3, bcc 2, hcp 1, anything else 0. -/
def CRYSTAL_PRIORITY (cs : String) : ℕ :=
  if cs = "fcc" then 3 else if cs = "bcc" then 2 else if cs = "hcp" then 1 else 0

/-- Priority assigned to one element inside _select_base_element
(ternary_mixer.py lines 96-101): crystal-family priority of its
LATTICE_DATA record, or 0 when the element is absent. -/
def elementPriority (elem : String) : ℕ :=
  match LATTICE_DATA.lookup elem with
  | some (cs, _) => CRYSTAL_PRIORITY cs
  | none => 0

/-- Python string comparison on the underlying character sequences:
lexicographic by Unicode code point. -/
def charListLt : List Char → List Char → Bool
  | [], [] => false
  | [], _ :: _ => true
  | _ :: _, [] => false
  | a :: as, b :: bs =>
      if a.toNat < b.toNat then true
      else if b.toNat < a.toNat then false
      else charListLt as bs

/-- Python comparison a < b on strings. -/
def strLt (a b : String) : Bool :=
  charListLt a.data b.data

/-- Python comparison x > acc on the (priority, element-symbol) pairs used
by max(priorities, key=lambda x: (x[0], x[1])): lexicographic, with the
Unicode-code-point ordering on the element symbols. -/
def tupleGt (x acc : ℕ × String) : Bool :=
  decide (acc.1 < x.1) || (decide (x.1 = acc.1) && strLt acc.2 x.2)

/-- Python max() over a nonempty list: start with the first element and
replace the candidate only when a later item compares strictly greater. -/
def pyMax (first : ℕ × String) (rest : List (ℕ × String)) : ℕ × String :=
  rest.foldl (fun acc x => if tupleGt x acc then x else acc) first

/-- Shallow embedding of TernaryAlloyMixer._select_base_element
(ternary_mixer.py lines 85-109): build (priority, element) pairs and take
the Python max.  The empty-list case never occurs (the mixer always holds
exactly three elements); it is mapped to the empty string. -/
def selectBaseElement (elements : List String) : String :=
  let priorities := elements.map (fun elem => (elementPriority elem, elem))
  match priorities with
  | [] => ""
  | p :: ps => (pyMax p ps).2

end TernaryMixer

/-- C8: the claim (and the docstring of _select_base_element, which says
ties are broken in alphabetical order) require the alphabetically first
element among those of maximal crystal priority.  The code instead takes
the Python max of (priority, symbol) pairs, so on a priority tie the
alphabetically last symbol wins: for the all-fcc set Al, Cu, Ni (all
priority 3) the code selects Ni, not Al. -/
theorem c8_tie_break_selects_alphabetically_last :
    TernaryMixer.selectBaseElement ["Al", "Cu", "Ni"] = "Ni" ∧
    TernaryMixer.elementPriority "Al" = 3 ∧
    TernaryMixer.elementPriority "Cu" = 3 ∧
    TernaryMixer.elementPriority "Ni" = 3 ∧
    ("Ni" : String) ≠ "Al" := by
  refine ⟨?_, ?_, ?_, ?_, ?_⟩ <;> decide

namespace Mixer

/-- Minimal Atoms object for the alloy mixer: the per-atom chemical
symbols (everything the substitution logic of
src/src/mattersim_dt/builder/mixer.py touches). -/
structure MixAtoms where
  symbols : List String
deriving DecidableEq

/-- Supercell expansion by the diagonal multiplier (s, s, s)
(mixer.py lines 87-90): the primitive cell is replicated s^3 times, so the
symbol list of the supercell is s^3 copies of the base cell symbol
list. -/
def makeSupercell (base_symbols : List String) (s : ℕ) : List String :=
  (List.replicate (s ^ 3) base_symbols).flatten

/-- Substitution loop of mixer.py lines 104-111: walk the symbol list with
its index and overwrite every index in targets with the dopant symbol. -/
def substituteFrom (dopant : String) (targets : List ℕ) : ℕ → List String → List String
  | _, [] => []
  | i, sym :: rest =>
      (if i ∈ targets then dopant else sym) :: substituteFrom dopant targets (i + 1) rest

/-- Shallow embedding of RandomAlloyMixer.generate_structure
(mixer.py lines 78-119).  The call random.shuffle(indices) is modelled by
the parameter shuffled, a permutation of range(total).  The number of
substituted sites is int(total * ratio) (floor, for the non-negative
ratios the pipeline uses); when that count is 0 while ratio > 0 the code
warns and returns the unmodified supercell. -/
def generateStructure (base_symbols : List String) (dopant : String) (ratio : ℚ)
    (supercell_size : ℕ) (shuffled : List ℕ) : MixAtoms :=
  let atoms := makeSupercell base_symbols supercell_size
  let total := atoms.length
  let num_substitute := (Int.floor ((total : ℚ) * ratio)).toNat
  if num_substitute = 0 ∧ 0 < ratio then
    ⟨atoms⟩
  else
    let target_indices := shuffled.take num_substitute
    ⟨substituteFrom dopant target_indices 0 atoms⟩

end Mixer

namespace Mixer

/-- Substitution does not change the number of atoms. -/
theorem substituteFrom_length (dopant : String) (ts : List ℕ) :
    ∀ (i : ℕ) (l : List String), (substituteFrom dopant ts i l).length = l.length
  | _, [] => rfl
  | i, _ :: rest => by
      simp [substituteFrom, substituteFrom_length dopant ts (i + 1) rest]

/-- Supercell atom count is the replication factor times the base cell
atom count. -/
theorem makeSupercell_length (base_symbols : List String) (s : ℕ) :
    (makeSupercell base_symbols s).length = s ^ 3 * base_symbols.length := by
  simp [makeSupercell]

/-- Membership in the supercell is membership in the base cell. -/
theorem not_mem_makeSupercell {dopant : String} {base_symbols : List String} (s : ℕ)
    (h : dopant ∉ base_symbols) : dopant ∉ makeSupercell base_symbols s := by
  simp only [makeSupercell, List.mem_flatten, List.mem_replicate]
  rintro ⟨l, ⟨-, rfl⟩, hmem⟩
  exact h hmem

/-- When no original symbol equals the dopant, the number of dopant atoms
after substitution is the number of in-range indices listed in the target
set. -/
theorem count_substituteFrom (dopant : String) (ts : List ℕ) :
    ∀ (i : ℕ) (l : List String), (∀ sym ∈ l, sym ≠ dopant) →
      (substituteFrom dopant ts i l).count dopant
        = (List.range' i l.length).countP (fun j => decide (j ∈ ts))
  | _, [], _ => by simp [substituteFrom]
  | i, sym :: rest, h => by
      have hrest := count_substituteFrom dopant ts (i + 1) rest
        (fun x hx => h x (List.mem_cons_of_mem _ hx))
      have hsym : sym ≠ dopant := h sym (List.mem_cons_self _ _)
      by_cases hi : i ∈ ts
      · simp [substituteFrom, hi, List.range'_succ, List.count_cons, List.countP_cons, hrest]
      · simp [substituteFrom, hi, List.range'_succ, List.count_cons, List.countP_cons,
          hrest, hsym]

/-- Counting over range(N) the indices that lie in the first k slots of a
shuffle of range(N) gives exactly k. -/
theorem countP_range_mem_take (shuffled : List ℕ) (N k : ℕ)
    (hperm : shuffled.Perm (List.range N)) (hk : k ≤ N) :
    (List.range N).countP (fun j => decide (j ∈ shuffled.take k)) = k := by
  have hlen : shuffled.length = N := by simpa using hperm.length_eq
  have hnodup : shuffled.Nodup := hperm.nodup_iff.mpr (List.nodup_range N)
  have hdisj : List.Disjoint (shuffled.take k) (shuffled.drop k) :=
    List.disjoint_take_drop hnodup (le_refl k)
  have hsplit := List.take_append_drop k shuffled
  calc (List.range N).countP (fun j => decide (j ∈ shuffled.take k))
      = shuffled.countP (fun j => decide (j ∈ shuffled.take k)) :=
        (hperm.countP_eq _).symm
    _ = (shuffled.take k ++ shuffled.drop k).countP
          (fun j => decide (j ∈ shuffled.take k)) := by rw [hsplit]
    _ = (shuffled.take k).countP (fun j => decide (j ∈ shuffled.take k))
          + (shuffled.drop k).countP (fun j => decide (j ∈ shuffled.take k)) :=
        List.countP_append _ _ _
    _ = (shuffled.take k).length + 0 := by
        congr 1
        · exact List.countP_eq_length.mpr (fun a ha => by simpa using ha)
        · refine List.countP_eq_zero.mpr (fun a ha => ?_)
          simp only [decide_eq_true_eq]
          exact fun hmem => hdisj hmem ha
    _ = k := by simp [hlen, hk]

end Mixer

/-- C10: generate_structure returns s^3 times the base-cell atom count
regardless of the ratio, substitutes exactly floor(N * ratio) of the N
atoms with the dopant, and when ratio > 0 yet floor(N * ratio) = 0 it
returns the pure base-element supercell with no dopant atoms at all. -/
theorem c10_generate_structure_substitution_counts
    (base_symbols : List String) (dopant : String) (ratio : ℚ)
    (s : ℕ) (shuffled : List ℕ)
    (hperm : shuffled.Perm (List.range (s ^ 3 * base_symbols.length)))
    (_hr0 : 0 ≤ ratio) (hr1 : ratio ≤ 1) (hdop : dopant ∉ base_symbols) :
    (Mixer.generateStructure base_symbols dopant ratio s shuffled).symbols.length
        = s ^ 3 * base_symbols.length ∧
    (Mixer.generateStructure base_symbols dopant ratio s shuffled).symbols.count dopant
        = (Int.floor (((s ^ 3 * base_symbols.length : ℕ) : ℚ) * ratio)).toNat ∧
    (0 < ratio →
      (Int.floor (((s ^ 3 * base_symbols.length : ℕ) : ℚ) * ratio)).toNat = 0 →
      (Mixer.generateStructure base_symbols dopant ratio s shuffled).symbols
        = Mixer.makeSupercell base_symbols s) := by
  have hN : (Mixer.makeSupercell base_symbols s).length = s ^ 3 * base_symbols.length :=
    Mixer.makeSupercell_length _ _
  have hnotmem : dopant ∉ Mixer.makeSupercell base_symbols s :=
    Mixer.not_mem_makeSupercell s hdop
  have hall : ∀ sym ∈ Mixer.makeSupercell base_symbols s, sym ≠ dopant :=
    fun sym hs heq => hnotmem (heq ▸ hs)
  have hkN : (Int.floor (((s ^ 3 * base_symbols.length : ℕ) : ℚ) * ratio)).toNat
      ≤ s ^ 3 * base_symbols.length := by
    have h1 : ((s ^ 3 * base_symbols.length : ℕ) : ℚ) * ratio
        ≤ ((s ^ 3 * base_symbols.length : ℕ) : ℚ) := by
      calc ((s ^ 3 * base_symbols.length : ℕ) : ℚ) * ratio
          ≤ ((s ^ 3 * base_symbols.length : ℕ) : ℚ) * 1 :=
            mul_le_mul_of_nonneg_left hr1 (by positivity)
        _ = ((s ^ 3 * base_symbols.length : ℕ) : ℚ) := mul_one _
    have h2 : Int.floor (((s ^ 3 * base_symbols.length : ℕ) : ℚ) * ratio)
        ≤ ((s ^ 3 * base_symbols.length : ℕ) : ℤ) := by
      have := Int.floor_le_floor h1
      rwa [Int.floor_natCast] at this
    exact Int.toNat_le.mpr h2
  simp only [Mixer.generateStructure, hN]
  by_cases hbranch :
      (Int.floor (((s ^ 3 * base_symbols.length : ℕ) : ℚ) * ratio)).toNat = 0 ∧ 0 < ratio
  · rw [if_pos hbranch]
    refine ⟨hN, ?_, fun _ _ => rfl⟩
    rw [List.count_eq_zero.mpr hnotmem, hbranch.1]
  · rw [if_neg hbranch]
    refine ⟨?_, ?_, ?_⟩
    · rw [Mixer.substituteFrom_length, hN]
    · rw [Mixer.count_substituteFrom dopant _ 0 _ hall, hN, ← List.range_eq_range']
      exact Mixer.countP_range_mem_take shuffled _ _ hperm hkN
    · intro hpos h0
      exact absurd ⟨h0, hpos⟩ hbranch

/-- C10 witness: a concrete 2x2x2 supercell of a one-atom Cu cell with
dopant Ni at ratio one quarter; the theorem applied at the identity
shuffle. -/
theorem c10_witness :
    (Mixer.generateStructure ["Cu"] "Ni" (1/4) 2 (List.range 8)).symbols.count "Ni"
      = (Int.floor (((2 ^ 3 * (["Cu"] : List String).length : ℕ) : ℚ) * (1/4))).toNat :=
  (c10_generate_structure_substitution_counts ["Cu"] "Ni" (1/4) 2 (List.range 8)
    (List.Perm.refl _) (by norm_num) (by norm_num) (by simp)).2.1

namespace BatchRelax

/-- Energy result of one relaxation: a finite total energy, or the
float(inf) sentinel recorded on failure
(src/src/mattersim_dt/engine/batch_relax.py, line 78). -/
inductive REnergy where
  | val (e : ℚ)
  | inf
deriving DecidableEq

/-- Relaxation of a single structure inside the batch loop
(batch_relax.py lines 68-78): on success the relaxed structure and its
total energy, on an exception the input structure paired with the
sentinel.  The BFGS optimizer plus calculator stack is the abstract
collaborator relax, which returns none when the relaxation raises. -/
def relaxOne {σ : Type} (relax : σ → Option (σ × ℚ)) (a : σ) : σ × REnergy :=
  match relax a with
  | some (relaxed, e) => (relaxed, .val e)
  | none => (a, .inf)

/-- num_batches = (len(atoms_list) + batch_size - 1) // batch_size
(batch_relax.py line 33). -/
def numBatches (batch_size n : ℕ) : ℕ :=
  (n + batch_size - 1) / batch_size

/-- The index-sliced batches of batch_relax.py lines 35-38:
batch = atoms_list[batch_idx * batch_size : (batch_idx + 1) * batch_size]
for batch_idx in range(num_batches). -/
def sliceBatches {σ : Type} (batch_size : ℕ) (l : List σ) : List (List σ) :=
  (List.range (numBatches batch_size l.length)).map
    (fun batch_idx => (l.drop (batch_idx * batch_size)).take batch_size)

/-- Shallow embedding of BatchStructureRelaxer.run_batch
(batch_relax.py lines 22-85): process the batches in order, relaxing each
member one at a time, and extend the result list batch by batch. -/
def runBatch {σ : Type} (relax : σ → Option (σ × ℚ)) (batch_size : ℕ)
    (l : List σ) : List (σ × REnergy) :=
  ((sliceBatches batch_size l).map (fun batch => batch.map (relaxOne relax))).flatten

theorem numBatches_succ (bs n : ℕ) (h : 0 < bs) (hn : 0 < n) :
    numBatches bs n = numBatches bs (n - bs) + 1 := by
  unfold numBatches
  have e1 : n + bs - 1 = (n - 1) + bs := by omega
  rw [e1, Nat.add_div_right _ h]
  rcases le_or_lt bs n with hbn | hbn
  · have e2 : n - bs + bs - 1 = n - 1 := by omega
    rw [e2]
  · have e2 : n - bs = 0 := by omega
    rw [e2]
    rw [Nat.div_eq_of_lt (by omega), Nat.div_eq_of_lt (by omega)]

theorem sliceBatches_cons {σ : Type} (bs : ℕ) (h : 0 < bs) (l : List σ)
    (hl : l ≠ []) :
    sliceBatches bs l = l.take bs :: sliceBatches bs (l.drop bs) := by
  unfold sliceBatches
  rw [List.length_drop,
    numBatches_succ bs l.length h (List.length_pos.mpr hl),
    List.range_succ_eq_map]
  simp only [List.map_cons, List.map_map, Nat.zero_mul, List.drop_zero]
  congr 1
  apply List.map_congr_left
  intro i _
  simp only [Function.comp_apply, List.drop_drop]
  congr 2
  rw [Nat.succ_mul]
  exact Nat.add_comm _ _

/-- Joining the index-computed batches back together recovers the input
list: run_batch visits every input structure exactly once, in order. -/
theorem sliceBatches_flatten {σ : Type} (bs : ℕ) (h : 0 < bs) :
    ∀ l : List σ, (sliceBatches bs l).flatten = l
  | [] => by
      have h0 : numBatches bs 0 = 0 := by
        unfold numBatches
        exact Nat.div_eq_of_lt (by omega)
      simp [sliceBatches, h0]
  | x :: xs => by
      rw [sliceBatches_cons bs h (x :: xs) (by simp), List.flatten_cons,
        sliceBatches_flatten bs h ((x :: xs).drop bs), List.take_append_drop]
  termination_by l => l.length
  decreasing_by simp; omega

/-- run_batch is extensionally the one-at-a-time relaxation of every input
structure, in input order. -/
theorem runBatch_eq_map {σ : Type} (relax : σ → Option (σ × ℚ)) (bs : ℕ)
    (l : List σ) (h : 0 < bs) :
    runBatch relax bs l = l.map (relaxOne relax) := by
  unfold runBatch
  rw [← List.map_flatten, sliceBatches_flatten bs h l]

/-- Result-registration loop of
MaterialPipeline._run_parallel_ratio_relaxation
(src/src/mattersim_dt/pipeline.py, lines 365-373): every batch result with
a non-sentinel energy is registered with the stability analyzer (first
component, the ledger of (structure, total energy) entries) and stored in
relaxed_structures keyed by its formula (second component); sentinel
entries are dropped. -/
def registerResults {σ : Type} (formulaOf : σ → String)
    (batch_results : List (σ × REnergy)) : List (σ × ℚ) × List (String × σ) :=
  batch_results.foldl
    (fun acc p =>
      match p with
      | (relaxed_atoms, .val energy_total) =>
          (acc.1 ++ [(relaxed_atoms, energy_total)],
           acc.2 ++ [(formulaOf relaxed_atoms, relaxed_atoms)])
      | (_, .inf) => acc)
    ([], [])

/-- Shallow embedding of MaterialPipeline._run_parallel_ratio_relaxation
(pipeline.py lines 349-373): generate one structure per mixing ratio
(gen is the deterministic structure generator per ratio), batch-relax them
all, then register the non-sentinel results. -/
def runParallelRatioRelaxation {σ : Type} (gen : ℚ → σ)
    (relax : σ → Option (σ × ℚ)) (formulaOf : σ → String) (batch_size : ℕ)
    (mixing_ratios : List ℚ) : List (σ × ℚ) × List (String × σ) :=
  let atoms_list := mixing_ratios.map gen
  let batch_results := runBatch relax batch_size atoms_list
  registerResults formulaOf batch_results

/-- Shallow embedding of MaterialPipeline._run_sequential_ratio_relaxation
(pipeline.py lines 375-392): per ratio, generate and relax; on success
register with the analyzer and store the structure, on an exception print
and continue with the next ratio. -/
def runSequentialRatioRelaxation {σ : Type} (gen : ℚ → σ)
    (relax : σ → Option (σ × ℚ)) (formulaOf : σ → String)
    (mixing_ratios : List ℚ) : List (σ × ℚ) × List (String × σ) :=
  mixing_ratios.foldl
    (fun acc r =>
      match relax (gen r) with
      | some (relaxed_atoms, energy_total) =>
          (acc.1 ++ [(relaxed_atoms, energy_total)],
           acc.2 ++ [(formulaOf relaxed_atoms, relaxed_atoms)])
      | none => acc)
    ([], [])

/-- Registered ledger entries are exactly the successful relaxations, in
order: the sentinel results are filtered out before the ledger is
touched. -/
theorem registerResults_fst_eq_filterMap {σ : Type} (formulaOf : σ → String)
    (relax : σ → Option (σ × ℚ)) (l : List σ) :
    (registerResults formulaOf (l.map (relaxOne relax))).1 = l.filterMap relax := by
  unfold registerResults
  suffices hgen : ∀ (acc : List (σ × ℚ) × List (String × σ)),
      (List.foldl
        (fun acc p =>
          match p with
          | (relaxed_atoms, REnergy.val energy_total) =>
              (acc.1 ++ [(relaxed_atoms, energy_total)],
               acc.2 ++ [(formulaOf relaxed_atoms, relaxed_atoms)])
          | (_, REnergy.inf) => acc)
        acc (l.map (relaxOne relax))).1 = acc.1 ++ l.filterMap relax by
    simpa using hgen ([], [])
  induction l with
  | nil => intro acc; simp
  | cons a l ih =>
      intro acc
      cases ha : relax a with
      | none => simp [relaxOne, ha, ih]
      | some p =>
          cases p with
          | mk s e => simp [relaxOne, ha, ih]

end BatchRelax

/-- C2: given the same mixing-ratio list, a deterministic per-ratio
structure generator and a deterministic relaxation collaborator, the
batched strategy (BatchStructureRelaxer with any positive batch size) and
the sequential strategy register identical ledgers of (structure, total
energy) entries and identical relaxed_structures stores, so in particular
the same set of (formula, energy) pairs. -/
theorem c2_batched_and_sequential_equivalent {σ : Type} (gen : ℚ → σ)
    (relax : σ → Option (σ × ℚ)) (formulaOf : σ → String) (batch_size : ℕ)
    (mixing_ratios : List ℚ) (hbs : 0 < batch_size) :
    BatchRelax.runParallelRatioRelaxation gen relax formulaOf batch_size mixing_ratios
      = BatchRelax.runSequentialRatioRelaxation gen relax formulaOf mixing_ratios := by
  simp only [BatchRelax.runParallelRatioRelaxation,
    BatchRelax.runSequentialRatioRelaxation, BatchRelax.registerResults]
  rw [BatchRelax.runBatch_eq_map relax batch_size _ hbs, List.map_map, List.foldl_map]
  congr 1
  funext acc r
  cases hr : relax (gen r) with
  | none => simp [BatchRelax.relaxOne, Function.comp, hr]
  | some p =>
      cases p with
      | mk s e => simp [BatchRelax.relaxOne, Function.comp, hr]

/-- C2 witness: the equivalence applied to a concrete two-ratio request
list with the identity generator and an always-succeeding relaxer. -/
theorem c2_witness :
    BatchRelax.runParallelRatioRelaxation (fun r => r) (fun a => some (a, a))
        (fun _ => "X") 4 [1/2, 1/4]
      = BatchRelax.runSequentialRatioRelaxation (fun r => r) (fun a => some (a, a))
        (fun _ => "X") [1/2, 1/4] :=
  c2_batched_and_sequential_equivalent (fun r => r) (fun a => some (a, a))
    (fun _ => "X") 4 [1/2, 1/4] (by norm_num)

/-- C3: when the relaxation of the i-th member of a batch run raises, that
member's result is the sentinel energy inf while every member (the
remaining ones included) is still processed by the one-at-a-time
relaxation, and the caller's ledger receives exactly the successful
(structure, energy) pairs: every sentinel entry is excluded before the
stability evaluation. -/
theorem c3_failure_isolation_and_sentinel_filter {σ : Type}
    (relax : σ → Option (σ × ℚ)) (formulaOf : σ → String) (batch_size : ℕ)
    (l : List σ) (i : ℕ) (hbs : 0 < batch_size) (hi : i < l.length)
    (hfail : relax (l.get ⟨i, hi⟩) = none) :
    (BatchRelax.runBatch relax batch_size l)[i]? =
        some (l.get ⟨i, hi⟩, BatchRelax.REnergy.inf) ∧
    (∀ j (hj : j < l.length),
        (BatchRelax.runBatch relax batch_size l)[j]? =
          some (BatchRelax.relaxOne relax (l.get ⟨j, hj⟩))) ∧
    (BatchRelax.registerResults formulaOf
        (BatchRelax.runBatch relax batch_size l)).1 = l.filterMap relax := by
  have hmap := BatchRelax.runBatch_eq_map relax batch_size l hbs
  refine ⟨?_, ?_, ?_⟩
  · rw [hmap, List.getElem?_map, List.getElem?_eq_getElem hi]
    have hfail2 : relax l[i] = none := hfail
    simp [BatchRelax.relaxOne, hfail2]
  · intro j hj
    rw [hmap, List.getElem?_map, List.getElem?_eq_getElem hj]
    simp
  · rw [hmap]
    exact BatchRelax.registerResults_fst_eq_filterMap formulaOf relax l

/-- C3 witness: a three-member batch over the naturals whose middle member
fails to relax; the ledger keeps exactly the two successful members. -/
theorem c3_witness :
    (BatchRelax.registerResults (fun _ => "F")
        (BatchRelax.runBatch (fun n => if n = 1 then none else some (n, (n : ℚ))) 2
          [0, 1, 2])).1
      = [0, 1, 2].filterMap (fun n => if n = 1 then none else some (n, (n : ℚ))) := by
  exact (c3_failure_isolation_and_sentinel_filter
    (fun n => if n = 1 then none else some (n, (n : ℚ))) (fun _ => "F") 2
    [0, 1, 2] 1 (by norm_num) (by norm_num) (by simp)).2.2

namespace Pipeline

/-- Chemical formula as the MD phase sees it: the reduced-formula string
used as dictionary key, and the distinct elements pymatgen Composition
parses out of it. -/
structure Formula where
  name : String
  elements : List String
deriving DecidableEq

/-- Minimal Atoms object for the MD phase: the atom count and the three
cell vectors lengths (what len(atoms) and atoms * (2, 2, 2) touch). -/
structure MdAtoms where
  natoms : ℕ
  cell : ℚ × ℚ × ℚ
deriving DecidableEq

/-- ASE atoms * (f1, f2, f3): replication along the three axes multiplies
the atom count by f1 * f2 * f3 and each cell vector by its factor. -/
def replicateAtoms (a : MdAtoms) (f1 f2 f3 : ℕ) : MdAtoms :=
  { natoms := a.natoms * (f1 * f2 * f3)
    cell := (a.cell.1 * f1, a.cell.2.1 * f2, a.cell.2.2 * f3) }

/-- Size check and expansion applied to every structure before MD
(src/src/mattersim_dt/pipeline.py lines 518-519, and identically
src/run_pipeline.py lines 437-438 and 494-498): below 200 atoms the
structure is replicated 2 x 2 x 2, otherwise it is passed unmodified. -/
def preprocessForMd (atoms : MdAtoms) : MdAtoms :=
  if atoms.natoms < 200 then replicateAtoms atoms 2 2 2 else atoms

/-- One MD task tuple (formula, structure, temperature, steps, device). -/
structure MdTask where
  formula : Formula
  atoms : MdAtoms
  temperature : ℚ
  steps : ℕ
  device : String
deriving DecidableEq

/-- Task preparation of MaterialPipeline._run_md_simulation
(pipeline.py lines 509-520): pure single-element formulas are skipped,
each remaining stable formula with a stored relaxed structure is size
checked, expanded if small, and appended as one task.  Both the
multi-process branch (pool.map over tasks) and the sequential branch
iterate exactly this task list. -/
def prepareMdTasks (stable_formulas : List Formula)
    (relaxed_structures : Formula → Option MdAtoms)
    (temperature : ℚ) (steps : ℕ) (device : String) : List MdTask :=
  match stable_formulas with
  | [] => []
  | formula :: rest =>
      if formula.elements.length = 1 then
        prepareMdTasks rest relaxed_structures temperature steps device
      else
        match relaxed_structures formula with
        | some atoms =>
            ⟨formula, preprocessForMd atoms, temperature, steps, device⟩ ::
              prepareMdTasks rest relaxed_structures temperature steps device
        | none => prepareMdTasks rest relaxed_structures temperature steps device

/-- Task preparation of the script variant run_experiment_for_pair
(src/run_pipeline.py lines 432-440; the sequential branch lines 486-498
iterates the same way): every stable formula with a stored structure is
dispatched, with no pure-element check. -/
def rpPrepareMdTasks (stable_formulas : List Formula)
    (relaxed_structures : Formula → Option MdAtoms)
    (temperature : ℚ) (steps : ℕ) (device : String) : List MdTask :=
  match stable_formulas with
  | [] => []
  | formula :: rest =>
      match relaxed_structures formula with
      | some atoms =>
          ⟨formula, preprocessForMd atoms, temperature, steps, device⟩ ::
            rpPrepareMdTasks rest relaxed_structures temperature steps device
      | none => rpPrepareMdTasks rest relaxed_structures temperature steps device

/-- Every dispatched task of MaterialPipeline._run_md_simulation comes
from a non-pure formula whose stored structure went through the MD size
preprocessing. -/
theorem mem_prepareMdTasks {t : MdTask} :
    ∀ (stable_formulas : List Formula)
      (relaxed_structures : Formula → Option MdAtoms)
      (temperature : ℚ) (steps : ℕ) (device : String),
      t ∈ prepareMdTasks stable_formulas relaxed_structures temperature steps device →
      t.formula.elements.length ≠ 1 ∧
        ∃ a, relaxed_structures t.formula = some a ∧ t.atoms = preprocessForMd a
  | [], _, _, _, _, h => by simp [prepareMdTasks] at h
  | formula :: rest, structures, temp, steps, dev, h => by
      rw [prepareMdTasks] at h
      by_cases hpure : formula.elements.length = 1
      · rw [if_pos hpure] at h
        exact mem_prepareMdTasks rest structures temp steps dev h
      · rw [if_neg hpure] at h
        cases hs : structures formula with
        | none =>
            rw [hs] at h
            exact mem_prepareMdTasks rest structures temp steps dev h
        | some atoms =>
            rw [hs] at h
            rcases List.mem_cons.mp h with ht | ht
            · subst ht
              exact ⟨hpure, atoms, hs, rfl⟩
            · exact mem_prepareMdTasks rest structures temp steps dev ht

/-- Every dispatched task of the run_pipeline.py script variant carries
the stored structure after the MD size preprocessing. -/
theorem mem_rpPrepareMdTasks {t : MdTask} :
    ∀ (stable_formulas : List Formula)
      (relaxed_structures : Formula → Option MdAtoms)
      (temperature : ℚ) (steps : ℕ) (device : String),
      t ∈ rpPrepareMdTasks stable_formulas relaxed_structures temperature steps device →
      ∃ a, relaxed_structures t.formula = some a ∧ t.atoms = preprocessForMd a
  | [], _, _, _, _, h => by simp [rpPrepareMdTasks] at h
  | formula :: rest, structures, temp, steps, dev, h => by
      rw [rpPrepareMdTasks] at h
      cases hs : structures formula with
      | none =>
          rw [hs] at h
          exact mem_rpPrepareMdTasks rest structures temp steps dev h
      | some atoms =>
          rw [hs] at h
          rcases List.mem_cons.mp h with ht | ht
          · subst ht
            exact ⟨atoms, hs, rfl⟩
          · exact mem_rpPrepareMdTasks rest structures temp steps dev ht

/-- The five-entry end-to-end scenario: pure Cu, pure Ni and three mixed
ratios, all marked stable. -/
def scenarioStable : List Formula :=
  [⟨"Cu", ["Cu"]⟩, ⟨"Cu3Ni", ["Cu", "Ni"]⟩, ⟨"CuNi", ["Cu", "Ni"]⟩,
   ⟨"CuNi3", ["Cu", "Ni"]⟩, ⟨"Ni", ["Ni"]⟩]

/-- Relaxed-structure store for the scenario: every formula has a stored
32-atom structure. -/
def scenarioStructures : Formula → Option MdAtoms :=
  fun _ => some ⟨32, (1, 1, 1)⟩

end Pipeline

/-- C5: the claim says no pure single-element formula is ever dispatched
to MD.  Counterexample: the script variant run_experiment_for_pair in
src/run_pipeline.py builds its MD task list (parallel branch, and likewise
its sequential loop) from every stable formula without any pure-element
check, so the stable pure formula Cu is dispatched to MD there. -/
theorem c5_counterexample_run_pipeline_dispatches_pure :
    (Pipeline.rpPrepareMdTasks [⟨"Cu", ["Cu"]⟩] Pipeline.scenarioStructures
        1000 5000 "cuda").map (fun t => t.formula) = [⟨"Cu", ["Cu"]⟩] ∧
    (⟨"Cu", ["Cu"]⟩ : Pipeline.Formula).elements.length = 1 :=
  ⟨rfl, rfl⟩

/-- C5 amended: in MaterialPipeline._run_md_simulation (pipeline.py) no
pure single-element formula is ever dispatched to MD, and in the
end-to-end scenario with 2 pure and 3 mixed stable entries exactly the 3
non-pure formulas proceed to MD; the run_pipeline.py script variant,
however, dispatches stable pure formulas as well. -/
theorem c5_pipeline_md_skips_pure_elements
    (stable_formulas : List Pipeline.Formula)
    (relaxed_structures : Pipeline.Formula → Option Pipeline.MdAtoms)
    (temperature : ℚ) (steps : ℕ) (device : String) :
    (∀ t ∈ Pipeline.prepareMdTasks stable_formulas relaxed_structures
        temperature steps device, t.formula.elements.length ≠ 1) ∧
    (Pipeline.prepareMdTasks Pipeline.scenarioStable Pipeline.scenarioStructures
        temperature steps device).map (fun t => t.formula.name)
      = ["Cu3Ni", "CuNi", "CuNi3"] := by
  constructor
  · intro t ht
    exact (Pipeline.mem_prepareMdTasks stable_formulas relaxed_structures
      temperature steps device ht).1
  · rfl

/-- C5 witness: the amended theorem applied to the concrete scenario task
list, at the CuNi task. -/
theorem c5_witness :
    (⟨⟨"CuNi", ["Cu", "Ni"]⟩, Pipeline.preprocessForMd ⟨32, (1, 1, 1)⟩, 1000, 5000,
        "cuda"⟩ : Pipeline.MdTask).formula.elements.length ≠ 1 := by
  apply (c5_pipeline_md_skips_pure_elements Pipeline.scenarioStable
    Pipeline.scenarioStructures 1000 5000 "cuda").1
  rw [show Pipeline.prepareMdTasks Pipeline.scenarioStable Pipeline.scenarioStructures
      1000 5000 "cuda"
    = [⟨⟨"Cu3Ni", ["Cu", "Ni"]⟩, Pipeline.preprocessForMd ⟨32, (1, 1, 1)⟩, 1000, 5000,
        "cuda"⟩,
       ⟨⟨"CuNi", ["Cu", "Ni"]⟩, Pipeline.preprocessForMd ⟨32, (1, 1, 1)⟩, 1000, 5000,
        "cuda"⟩,
       ⟨⟨"CuNi3", ["Cu", "Ni"]⟩, Pipeline.preprocessForMd ⟨32, (1, 1, 1)⟩, 1000, 5000,
        "cuda"⟩] from rfl]
  exact List.mem_cons_of_mem _ (List.mem_cons_self _ _)

/-- C6: every structure handed to the MD phase with fewer than 200 atoms
is replicated by exactly (2, 2, 2) (multiplying the atom count by 8), one
with at least 200 atoms is passed unmodified, and every task dispatched by
either MD-phase variant carries exactly this preprocessing of its stored
relaxed structure. -/
theorem c6_md_size_preprocessing (atoms : Pipeline.MdAtoms) :
    (atoms.natoms < 200 →
        Pipeline.preprocessForMd atoms = Pipeline.replicateAtoms atoms 2 2 2 ∧
        (Pipeline.preprocessForMd atoms).natoms = 8 * atoms.natoms) ∧
    (200 ≤ atoms.natoms → Pipeline.preprocessForMd atoms = atoms) ∧
    (∀ (stable : List Pipeline.Formula)
        (structures : Pipeline.Formula → Option Pipeline.MdAtoms)
        (temp : ℚ) (steps : ℕ) (dev : String) (t : Pipeline.MdTask),
        t ∈ Pipeline.prepareMdTasks stable structures temp steps dev →
        ∃ a, structures t.formula = some a ∧ t.atoms = Pipeline.preprocessForMd a) ∧
    (∀ (stable : List Pipeline.Formula)
        (structures : Pipeline.Formula → Option Pipeline.MdAtoms)
        (temp : ℚ) (steps : ℕ) (dev : String) (t : Pipeline.MdTask),
        t ∈ Pipeline.rpPrepareMdTasks stable structures temp steps dev →
        ∃ a, structures t.formula = some a ∧ t.atoms = Pipeline.preprocessForMd a) := by
  refine ⟨?_, ?_, ?_, ?_⟩
  · intro h
    unfold Pipeline.preprocessForMd
    rw [if_pos h]
    refine ⟨rfl, ?_⟩
    show atoms.natoms * (2 * 2 * 2) = 8 * atoms.natoms
    omega
  · intro h
    unfold Pipeline.preprocessForMd
    rw [if_neg (not_lt.mpr h)]
  · intro stable structures temp steps dev t ht
    exact (Pipeline.mem_prepareMdTasks stable structures temp steps dev ht).2
  · intro stable structures temp steps dev t ht
    exact Pipeline.mem_rpPrepareMdTasks stable structures temp steps dev ht

/-- C6 witness: the preprocessing rule applied at a concrete 32-atom
structure (replicated) and at a concrete 200-atom structure (passed
unmodified). -/
theorem c6_witness :
    Pipeline.preprocessForMd ⟨32, (1, 1, 1)⟩
        = Pipeline.replicateAtoms ⟨32, (1, 1, 1)⟩ 2 2 2 ∧
    Pipeline.preprocessForMd ⟨200, (1, 1, 1)⟩ = (⟨200, (1, 1, 1)⟩ : Pipeline.MdAtoms) :=
  ⟨((c6_md_size_preprocessing ⟨32, (1, 1, 1)⟩).1 (by norm_num)).1,
   (c6_md_size_preprocessing ⟨200, (1, 1, 1)⟩).2.1 (by norm_num)⟩

namespace MdAnalyzer

/-- Boltzmann constant of ase.units in eV per kelvin. -/
noncomputable def kB : ℝ := 8.617333262e-5

/-- One trajectory frame as the analyzer reads it: whether a calculator is
attached (frames without one are skipped), potential energy, kinetic
energy, atom count, and cell volume. -/
structure Frame where
  hasCalc : Bool
  epot : ℝ
  ekin : ℝ
  natoms : ℕ
  volume : ℝ
deriving Inhabited

/-- Instantaneous temperature of a frame
(src/src/mattersim_dt/analysis/md_analyzer.py, line 52):
temp = ekin / (1.5 * len(atoms) * kB). -/
noncomputable def frameTemperature (f : Frame) : ℝ :=
  f.ekin / (1.5 * (f.natoms : ℝ) * kB)

/-- np.mean over a list of reals. -/
noncomputable def listMean (xs : List ℝ) : ℝ :=
  xs.sum / xs.length

/-- np.std (population standard deviation) over a list of reals. -/
noncomputable def listStd (xs : List ℝ) : ℝ :=
  Real.sqrt (((xs.map (fun x => (x - listMean xs) ^ 2)).sum) / xs.length)

/-- Result dictionary of MDAnalyzer.analyze (md_analyzer.py lines 84-95);
the final_formula string is not modelled.  The stability verdict is the
proposition of line 82. -/
structure MDResult where
  trajectory_frames : ℕ
  total_frames_original : ℕ
  avg_temperature : ℝ
  temperature_std : ℝ
  temperature_fluctuation_percent : ℝ
  avg_energy_per_atom : ℝ
  energy_std_per_atom : ℝ
  volume_change_percent : ℝ
  is_thermally_stable : Prop

/-- Shallow embedding of MDAnalyzer.analyze
(md_analyzer.py lines 17-103).  The ASE trajectory reader is modelled as
the frame list itself; an unreadable file corresponds to the exceptional
branches, which produce the error dictionary.  Frames whose per-frame
energy read raises are the hasCalc = false ones; skip_frames is
int(total_frames * 0.2); if the post-discard slice is empty the code falls
back to the whole trajectory; volume change always compares the last
analyzed frame against the first frame of the full trajectory. -/
noncomputable def analyze (traj : List Frame) : Except String MDResult :=
  if traj.length = 0 then Except.error "Empty trajectory"
  else
    let total_frames := traj.length
    let skip_frames := (Int.floor ((total_frames : ℚ) * 0.2)).toNat
    let sliced := traj.drop skip_frames
    let analyzed_traj := if sliced.length = 0 then traj else sliced
    let usable := analyzed_traj.filter (fun f => f.hasCalc)
    let energies := usable.map (fun f => f.epot)
    let temperatures := usable.map frameTemperature
    if energies.length = 0 then Except.error "No energy data available"
    else
      let final_atoms := analyzed_traj.getLastD default
      let initial_atoms := traj.headD default
      let volume_change :=
        (final_atoms.volume - initial_atoms.volume) / initial_atoms.volume * 100
      let temp_mean := listMean temperatures
      let temp_std := listStd temperatures
      let temp_fluctuation := if 0 < temp_mean then temp_std / temp_mean * 100 else 0
      let energy_mean := listMean energies
      let energy_std := listStd energies
      Except.ok
        { trajectory_frames := analyzed_traj.length
          total_frames_original := total_frames
          avg_temperature := temp_mean
          temperature_std := temp_std
          temperature_fluctuation_percent := temp_fluctuation
          avg_energy_per_atom := energy_mean / (final_atoms.natoms : ℝ)
          energy_std_per_atom := energy_std / (final_atoms.natoms : ℝ)
          volume_change_percent := volume_change
          is_thermally_stable := temp_fluctuation < 10.0 ∧ |volume_change| < 15.0 }

/-- Python int(n * 0.2) for a frame count n is the floor of one fifth of
n. -/
theorem floor_point_two (n : ℕ) : (Int.floor ((n : ℚ) * 0.2)).toNat = n / 5 := by
  have h : (n : ℚ) * 0.2 = (n : ℚ) / 5 := by
    rw [show (0.2 : ℚ) = 1 / 5 by norm_num]
    ring
  rw [h, Int.floor_toNat]
  exact_mod_cast Nat.floor_div_eq_div (α := ℚ) n 5

end MdAnalyzer

/-- C7: for every non-empty trajectory (with at least one usable frame in
the analysis window), the analyzer discards exactly the leading
floor(0.2 * frame count) frames before computing the temperature and
energy statistics (the empty-window fallback is never taken), measures the
volume change relative to the very first frame of the full unequilibrated
trajectory, and reports thermal stability exactly when the temperature
fluctuation percentage is below 10 and the absolute volume change
percentage is below 15. -/
theorem c7_md_analyzer_window_volume_and_stability
    (traj : List MdAnalyzer.Frame) (hne : traj ≠ [])
    (husable : (traj.drop (traj.length / 5)).filter (fun f => f.hasCalc) ≠ []) :
    ∃ r, MdAnalyzer.analyze traj = Except.ok r ∧
      r.total_frames_original = traj.length ∧
      r.trajectory_frames = (traj.drop (traj.length / 5)).length ∧
      r.avg_temperature =
        MdAnalyzer.listMean
          (((traj.drop (traj.length / 5)).filter (fun f => f.hasCalc)).map
            MdAnalyzer.frameTemperature) ∧
      r.volume_change_percent =
        (((traj.drop (traj.length / 5)).getLastD default).volume
            - (traj.headD default).volume)
          / (traj.headD default).volume * 100 ∧
      (r.is_thermally_stable ↔
        r.temperature_fluctuation_percent < 10.0 ∧ |r.volume_change_percent| < 15.0) := by
  have hn0 : ¬ traj.length = 0 := fun h => hne (List.length_eq_zero.mp h)
  have hskip : (Int.floor ((traj.length : ℚ) * 0.2)).toNat = traj.length / 5 :=
    MdAnalyzer.floor_point_two traj.length
  have hslice : ¬ (traj.drop (traj.length / 5)).length = 0 := by
    rw [List.length_drop]
    have hlt : traj.length / 5 < traj.length :=
      Nat.div_lt_self (Nat.pos_of_ne_zero hn0) (by norm_num)
    omega
  have husable_len :
      ¬ (((traj.drop (traj.length / 5)).filter (fun f => f.hasCalc)).map
          (fun f => f.epot)).length = 0 := by
    rw [List.length_map]
    exact fun h => husable (List.length_eq_zero.mp h)
  simp only [MdAnalyzer.analyze, hskip]
  rw [if_neg hn0, if_neg hslice, if_neg husable_len]
  exact ⟨_, rfl, rfl, rfl, rfl, rfl, Iff.rfl⟩

/-- Concrete two-frame trajectory (both frames usable, volumes 100 and
110) used to instantiate the MD analyzer theorem. -/
noncomputable def mdTrajC : List MdAnalyzer.Frame :=
  [⟨true, -1, 3, 2, 100⟩, ⟨true, -1, 3, 2, 110⟩]

/-- C7 witness: the analyzer theorem applied to the concrete two-frame
trajectory. -/
theorem c7_witness :
    ∃ r, MdAnalyzer.analyze mdTrajC = Except.ok r ∧
      r.total_frames_original = mdTrajC.length ∧
      r.trajectory_frames = (mdTrajC.drop (mdTrajC.length / 5)).length ∧
      r.avg_temperature =
        MdAnalyzer.listMean
          (((mdTrajC.drop (mdTrajC.length / 5)).filter (fun f => f.hasCalc)).map
            MdAnalyzer.frameTemperature) ∧
      r.volume_change_percent =
        (((mdTrajC.drop (mdTrajC.length / 5)).getLastD default).volume
            - (mdTrajC.headD default).volume)
          / (mdTrajC.headD default).volume * 100 ∧
      (r.is_thermally_stable ↔
        r.temperature_fluctuation_percent < 10.0 ∧ |r.volume_change_percent| < 15.0) :=
  c7_md_analyzer_window_volume_and_stability mdTrajC (by simp [mdTrajC])
    (by simp [mdTrajC])

namespace RunPipeline

/-- One row of the prior results CSV as resume reads it back: only the
system column matters to load_completed_systems. -/
structure CsvRow where
  system : String
deriving DecidableEq

/-- The system name written into every record and compared on resume:
f-string "elem_A-elem_B" (src/run_pipeline.py lines 671 and 702). -/
def systemName (element_A element_B : String) : String :=
  element_A ++ "-" ++ element_B

/-- Shallow embedding of load_completed_systems
(src/run_pipeline.py lines 103-132): the distinct values of the system
column of the checkpoint file; a missing file, a missing system column or
a read error (the none case) yields the empty set. -/
def loadCompletedSystems (rows : Option (List CsvRow)) : List String :=
  match rows with
  | none => []
  | some rs => (rs.map (fun r => r.system)).dedup

/-- Builder and relaxer invocations of one pipeline run, tagged with the
system being processed when they occur. -/
inductive PipelineEvent where
  | buildPure (system element : String)
  | relaxPure (system element : String)
  | buildRatio (system : String) (ratio : ℚ)
  | relaxRatio (system : String) (ratio : ℚ)
deriving DecidableEq

/-- System a builder or relaxer invocation belongs to. -/
def eventSystem : PipelineEvent → String
  | .buildPure s _ => s
  | .relaxPure s _ => s
  | .buildRatio s _ => s
  | .relaxRatio s _ => s

/-- Builder/relaxer invocation trace of run_experiment_for_pair
(src/run_pipeline.py lines 208-345) for one system: Phase 1 generates and
relaxes the two pure-element reference structures (lines 237-261), then
one structure per mixing ratio (lines 263-345; in batch mode all
generations precede the batched relaxations, which permutes but never
removes or adds invocations, so the sequential-mode order is traced). -/
def runExperimentEvents (element_A element_B : String)
    (mixing_ratios : List ℚ) : List PipelineEvent :=
  let sys := systemName element_A element_B
  [PipelineEvent.buildPure sys element_A, PipelineEvent.relaxPure sys element_A,
   PipelineEvent.buildPure sys element_B, PipelineEvent.relaxPure sys element_B]
    ++ mixing_ratios.flatMap
        (fun r => [PipelineEvent.buildRatio sys r, PipelineEvent.relaxRatio sys r])

/-- Shallow embedding of the composition loop of main
(src/run_pipeline.py lines 701-727): per enumerated pair, if the system
name is in the completed set the iteration is skipped with continue before
any structure work; otherwise run_experiment_for_pair runs for that
pair. -/
def mainLoopTrace (element_pairs : List (String × String))
    (completed_systems : List String) (mixing_ratios : List ℚ) :
    List PipelineEvent :=
  element_pairs.flatMap (fun p =>
    if systemName p.1 p.2 ∈ completed_systems then []
    else runExperimentEvents p.1 p.2 mixing_ratios)

/-- Every traced invocation of run_experiment_for_pair belongs to the
system it was called for. -/
theorem eventSystem_of_mem_runExperimentEvents {ev : PipelineEvent}
    {element_A element_B : String} {rs : List ℚ}
    (h : ev ∈ runExperimentEvents element_A element_B rs) :
    eventSystem ev = systemName element_A element_B := by
  unfold runExperimentEvents at h
  rcases List.mem_append.mp h with h4 | hr
  · simp only [List.mem_cons, List.not_mem_nil, or_false] at h4
    rcases h4 with rfl | rfl | rfl | rfl <;> rfl
  · rcases List.mem_flatMap.mp hr with ⟨r, -, hin⟩
    simp only [List.mem_cons, List.not_mem_nil, or_false] at hin
    rcases hin with rfl | rfl <;> rfl

end RunPipeline

/-- C1: in resume mode, for every system name present in the loaded
checkpoint (the system values read back from the prior results file), a
run over any enumerated pair list never invokes the structure builder or
the relaxer for that system: the composition loop skips matching systems
wholesale (continue before any structure work), so no builder or relaxer
event of the whole run carries that system name. -/
theorem c1_resume_never_reinvokes_completed_system
    (rows : List RunPipeline.CsvRow) (element_pairs : List (String × String))
    (mixing_ratios : List ℚ) (element_A element_B : String)
    (hdone : (⟨RunPipeline.systemName element_A element_B⟩ : RunPipeline.CsvRow)
      ∈ rows) :
    RunPipeline.systemName element_A element_B
        ∈ RunPipeline.loadCompletedSystems (some rows) ∧
    ∀ ev ∈ RunPipeline.mainLoopTrace element_pairs
        (RunPipeline.loadCompletedSystems (some rows)) mixing_ratios,
      RunPipeline.eventSystem ev ≠ RunPipeline.systemName element_A element_B := by
  have hmem : RunPipeline.systemName element_A element_B
      ∈ RunPipeline.loadCompletedSystems (some rows) := by
    unfold RunPipeline.loadCompletedSystems
    rw [List.mem_dedup]
    exact List.mem_map.mpr ⟨_, hdone, rfl⟩
  refine ⟨hmem, ?_⟩
  intro ev hev
  rcases List.mem_flatMap.mp hev with ⟨p, -, hin⟩
  have hin2 : ev ∈
      if RunPipeline.systemName p.1 p.2
          ∈ RunPipeline.loadCompletedSystems (some rows) then
        ([] : List RunPipeline.PipelineEvent)
      else RunPipeline.runExperimentEvents p.1 p.2 mixing_ratios := hin
  by_cases hc : RunPipeline.systemName p.1 p.2
      ∈ RunPipeline.loadCompletedSystems (some rows)
  · rw [if_pos hc] at hin2
    exact absurd hin2 (List.not_mem_nil ev)
  · rw [if_neg hc] at hin2
    rw [RunPipeline.eventSystem_of_mem_runExperimentEvents hin2]
    intro heq
    exact hc (heq ▸ hmem)

/-- C1 witness: the checkpoint lists Cu-Ni as completed; over the pair
list [(Cu, Ni), (Al, Mg)] the traced run carries no Cu-Ni builder or
relaxer event, checked at the Al pure-element build of the Al-Mg
system. -/
theorem c1_witness :
    RunPipeline.systemName "Cu" "Ni"
        ∈ RunPipeline.loadCompletedSystems (some [⟨"Cu-Ni"⟩]) ∧
    RunPipeline.eventSystem
        (RunPipeline.PipelineEvent.buildPure (RunPipeline.systemName "Al" "Mg") "Al")
      ≠ RunPipeline.systemName "Cu" "Ni" := by
  have h := c1_resume_never_reinvokes_completed_system [⟨"Cu-Ni"⟩]
    [("Cu", "Ni"), ("Al", "Mg")] [1/4] "Cu" "Ni" (by simp [RunPipeline.systemName])
  refine ⟨h.1, h.2 _ ?_⟩
  simp [RunPipeline.mainLoopTrace, RunPipeline.runExperimentEvents,
    RunPipeline.loadCompletedSystems, RunPipeline.systemName]
